import Mathlib

/-!
Shallow embedding of the `fibers-rs` fork (files `src/net/tcp.rs` and
`src/executor/futures_thread_pool.rs`) in Lean 4, together with theorems
settling the spec claims about socket parking, the connect state machine
and the thread-pool executor.

External collaborators of `tcp.rs` (the mio socket calls, the poller, the
oneshot monitors) are not in the verified sources; following the spec they
are modelled as an explicit environment whose fields give the outcome of
each external call made during one `poll`/`operate` step.  Monitors,
registrations, evented handles and sharable cells are identified by `Nat`
tokens; a Rust panic is modelled as the `none` result of an `Option`.
-/

namespace Fibers

/-- Interest of `io::poll` (`poll::Interest`): read or write readiness. -/
inductive Interest where
  | read
  | write
deriving DecidableEq, Repr

/-- Source `Interest::is_read` from the source: true exactly on the read interest. -/
def Interest.is_read : Interest → Bool
  | .read => true
  | .write => false

/-- A monitor (`sync::oneshot::Monitor<(), io::Error>`) is identified by a token;
its observable behaviour when polled is supplied by the environment. -/
abbrev Monitor := Nat

/-- A `poll::Register` future (returned by `Poller::register`) as a token. -/
abbrev Register := Nat

/-- An `EventedHandle` of the poller as a token. -/
abbrev EventedHandle := Nat

/-- Identity of a `SharableEvented` cell (the shared non-blocking OS socket). -/
abbrev SharableId := Nat

/-- A socket address, abstracted to a token. -/
abbrev SocketAddr := Nat

/-- The kind of a `std::io::Error`: would-block, or any other kind (tagged). -/
inductive IoErrorKind where
  | wouldBlock
  | other (tag : Nat)
deriving DecidableEq, Repr

/-- A `std::io::Error`: its kind plus a payload distinguishing distinct errors
of the same kind. -/
structure IoError where
  kind : IoErrorKind
  payload : Nat
deriving DecidableEq, Repr

/-- The error produced by `mio::would_block()`: kind is would-block. -/
def mioWouldBlock : IoError := ⟨IoErrorKind.wouldBlock, 0⟩

/-- Type `futures::Async`: a poll either yields a value or is not ready. -/
inductive Async (α : Type) where
  | ready (a : α)
  | notReady
deriving DecidableEq, Repr

/-- Type `futures::Poll<T, io::Error>` as used throughout `tcp.rs`. -/
abbrev IoPoll (α : Type) := Except IoError (Async α)

/-- The struct `TcpStream` of `src/net/tcp.rs`: a `SharableEvented` inner
socket, an `EventedHandle`, and one optional parked monitor per direction. -/
structure TcpStream where
  inner : SharableId
  handle : EventedHandle
  read_monitor : Option Monitor
  write_monitor : Option Monitor
deriving DecidableEq, Repr

/-- Constructor `TcpStream::new`: wraps the registered socket; both monitor slots start empty. -/
def TcpStream.new (inner : SharableId) (handle : EventedHandle) : TcpStream :=
  { inner := inner, handle := handle, read_monitor := none, write_monitor := none }

/-- Impl `Clone for TcpStream`: the clone shares `inner` and `handle` (both are
reference clones of the same underlying objects) and has empty monitor slots. -/
def TcpStream.clone (s : TcpStream) : TcpStream :=
  { inner := s.inner, handle := s.handle, read_monitor := none, write_monitor := none }

/-- Read side of `TcpStream::monitor(interest)`: the slot selected by
`interest.is_read()`. -/
def TcpStream.monitor_get (s : TcpStream) (interest : Interest) : Option Monitor :=
  if interest.is_read then s.read_monitor else s.write_monitor

/-- Write side of `TcpStream::monitor(interest)`: store `m` into the slot
selected by `interest.is_read()`. -/
def TcpStream.monitor_set (s : TcpStream) (interest : Interest) (m : Option Monitor) :
    TcpStream :=
  if interest.is_read then { s with read_monitor := m } else { s with write_monitor := m }

/-- Environment of one `TcpStream::operate(interest, f)` call: the outcome of
polling any given armed monitor (after `into_io_error`), the result of the
supplied socket operation `f(&mut inner)`, and the fresh monitor that
`self.handle.monitor(interest)` would create. -/
structure OperateEnv (T : Type) where
  pollMonitor : Monitor → IoPoll Unit
  socketOp : Except IoError T
  newMonitor : Monitor

/-- Main step of `TcpStream::operate(interest, f)` from `src/net/tcp.rs` lines 303-321.
If a monitor is armed: poll it; a monitor error propagates (slot already
taken), ready recurses with the slot cleared, not-ready restores the monitor
and returns `mio::would_block()`.  Otherwise run `f` on the inner socket;
on a would-block error arm a fresh monitor; every error is returned as-is. -/
def TcpStream.operate (s : TcpStream) (interest : Interest) (env : OperateEnv T) :
    Except IoError T × TcpStream :=
  match h : s.monitor_get interest with
  | some m =>
    match env.pollMonitor m with
    | .error e => (.error e, s.monitor_set interest none)
    | .ok (.ready _) => TcpStream.operate (s.monitor_set interest none) interest env
    | .ok .notReady => (.error mioWouldBlock, s.monitor_set interest (some m))
  | none =>
    match env.socketOp with
    | .ok v => (.ok v, s)
    | .error e =>
      if e.kind = IoErrorKind.wouldBlock then
        (.error e, s.monitor_set interest (some env.newMonitor))
      else
        (.error e, s)
termination_by (s.monitor_get interest).elim 0 fun _ => 1
decreasing_by cases interest <;> simp_all [TcpStream.monitor_get, TcpStream.monitor_set, Interest.is_read]

/-- Impl `io::Read::read for TcpStream`: `operate` with read interest (the socket
operation is `inner.read(buf)`, whose outcome the environment supplies). -/
def TcpStream.read (s : TcpStream) (env : OperateEnv Nat) : Except IoError Nat × TcpStream :=
  s.operate Interest.read env

/-- Impl `io::Write::write for TcpStream`: `operate` with write interest. -/
def TcpStream.write (s : TcpStream) (env : OperateEnv Nat) : Except IoError Nat × TcpStream :=
  s.operate Interest.write env

/-- Impl `io::Write::flush for TcpStream`: `operate` with write interest. -/
def TcpStream.flush (s : TcpStream) (env : OperateEnv Unit) :
    Except IoError Unit × TcpStream :=
  s.operate Interest.write env

/-- The struct `TcpListener`: a sharable inner listener, an evented handle,
and one optional parked monitor (for read/accept readiness). -/
structure TcpListener where
  inner : SharableId
  handle : EventedHandle
  monitor : Option Monitor
deriving DecidableEq, Repr

/-- The future `Connected` produced by the `Incoming` stream (`tcp.rs` line 168):
`Option` of the accepted sharable stream and the pending registration future;
`none` is the consumed state whose poll panics. -/
structure Connected where
  inner : Option (SharableId × Register)
deriving DecidableEq, Repr

/-- The stream `Incoming` (`tcp.rs` line 125): a newtype around the listener. -/
structure Incoming where
  listener : TcpListener
deriving DecidableEq, Repr

/-- Environment of one `Incoming::poll` call: outcome of polling an armed
monitor (after `into_io_error`), the result of `inner.accept()`, the
registration future issued by `poller.register(stream.clone())`, and the fresh
monitor that `self.0.handle.monitor(Interest::Read)` would create. -/
structure IncomingEnv where
  pollMonitor : Monitor → IoPoll Unit
  acceptResult : Except IoError (SharableId × SocketAddr)
  register : SharableId → Register
  newMonitor : Monitor

/-- Impl `Stream for Incoming`, `poll` (`tcp.rs` lines 129-156).  With an armed
monitor: a monitor error propagates, ready recurses with the slot cleared,
not-ready restores the monitor.  Otherwise `accept()`: success yields a
`Connected` future plus the peer address; a would-block error arms a read
monitor and returns not-ready; any other error propagates. -/
def Incoming.poll (s : Incoming) (env : IncomingEnv) :
    Except IoError (Async (Option (Connected × SocketAddr))) × Incoming :=
  match h : s.listener.monitor with
  | some m =>
    match env.pollMonitor m with
    | .error e => (.error e, ⟨{ s.listener with monitor := none }⟩)
    | .ok (.ready _) => Incoming.poll ⟨{ s.listener with monitor := none }⟩ env
    | .ok .notReady => (.ok .notReady, ⟨{ s.listener with monitor := some m }⟩)
  | none =>
    match env.acceptResult with
    | .ok (stream, addr) =>
      (.ok (.ready (some (⟨some (stream, env.register stream)⟩, addr))), s)
    | .error e =>
      if e.kind = IoErrorKind.wouldBlock then
        (.ok .notReady, ⟨{ s.listener with monitor := some env.newMonitor }⟩)
      else
        (.error e, s)
termination_by (s.listener.monitor).elim 0 fun _ => 1
decreasing_by simp [h]

/-- Environment for polling the registration future inside `Connected`:
the outcome of `Register::poll` after `into_io_error`, yielding the
`EventedHandle` on completion. -/
structure ConnectedEnv where
  registerPoll : Register → IoPoll EventedHandle

/-- Impl `Future for Connected`, `poll` (`tcp.rs` lines 172-180).  Takes `self.0`
(`none` means the future was already consumed: the source panics with
"Cannot poll Connected twice", modelled as `none`); if the registration
completes the `TcpStream` is returned, otherwise the state is restored. -/
def Connected.poll (c : Connected) (env : ConnectedEnv) :
    Option (Except IoError (Async TcpStream) × Connected) :=
  match c.inner with
  | none => none
  | some (stream, future) =>
    match env.registerPoll future with
    | .error e => some (.error e, ⟨none⟩)
    | .ok (.ready handle) => some (.ok (.ready (TcpStream.new stream handle)), ⟨none⟩)
    | .ok .notReady => some (.ok .notReady, ⟨some (stream, future)⟩)

/-- The state machine `ConnectInner` (`tcp.rs` lines 356-361). -/
inductive ConnectInner where
  | connect (addr : SocketAddr)
  | registering (stream : SharableId) (future : Register)
  | connecting (stream : TcpStream)
  | polled
deriving DecidableEq, Repr

/-- Progress rank of a `ConnectInner` state, used for termination of `poll`:
each internal transition strictly decreases it. -/
def ConnectInner.rank : ConnectInner → Nat
  | .connect _ => 3
  | .registering _ _ => 2
  | .connecting _ => 1
  | .polled => 0

/-- Environment of one `ConnectInner::poll` call: outcome of
`mio::tcp::TcpStream::connect(&addr)`, the registration future issued by
`poller.register(stream.clone())`, the outcome of polling that future
(after `into_io_error`), and the environment of the `stream.flush()`
readiness probe of the `Connecting` phase. -/
structure ConnectEnv where
  connectResult : SocketAddr → Except IoError SharableId
  register : SharableId → Register
  registerPoll : Register → IoPoll EventedHandle
  flushEnv : OperateEnv Unit

/-- Impl `Future for ConnectInner`, `poll` (`tcp.rs` lines 365-398).  The source
first replaces `self` with `Polled`; states that suspend restore themselves
explicitly.  `Connect`: create the socket (`?` on error leaves `Polled`),
register it and recurse as `Registering`.  `Registering`: poll the
registration; ready recurses as `Connecting`, not-ready restores the state.
`Connecting`: probe readiness with `stream.flush()`; `Ok` completes with the
stream, a would-block error returns not-ready (the source does NOT restore
the state here, leaving `Polled`), any other error propagates.  Polling the
`Polled` state panics with "Cannot poll ConnectInner twice" (`none`). -/
def ConnectInner.poll (st : ConnectInner) (env : ConnectEnv) :
    Option (Except IoError (Async TcpStream) × ConnectInner) :=
  match st with
  | .connect addr =>
    match env.connectResult addr with
    | .error e => some (.error e, .polled)
    | .ok stream => ConnectInner.poll (.registering stream (env.register stream)) env
  | .registering stream future =>
    match env.registerPoll future with
    | .error e => some (.error e, .polled)
    | .ok (.ready handle) => ConnectInner.poll (.connecting (TcpStream.new stream handle)) env
    | .ok .notReady => some (.ok .notReady, .registering stream future)
  | .connecting stream =>
    match stream.flush env.flushEnv with
    | (.ok _, stream2) => some (.ok (.ready stream2), .polled)
    | (.error e, _) =>
      if e.kind = IoErrorKind.wouldBlock then
        some (.ok .notReady, .polled)
      else
        some (.error e, .polled)
  | .polled => none
termination_by st.rank
decreasing_by all_goals simp [ConnectInner.rank]

/-- The future `Connect` (`tcp.rs` line 346): a newtype around `ConnectInner`. -/
structure Connect where
  inner : ConnectInner
deriving DecidableEq, Repr

/-- Function `TcpStream::connect(addr)`: starts the state machine at `Connect(addr)`. -/
def TcpStream.connect (addr : SocketAddr) : Connect :=
  ⟨ConnectInner.connect addr⟩

/-- Impl `Future for Connect`, `poll` (`tcp.rs` lines 350-352): delegates to the
inner state machine. -/
def Connect.poll (c : Connect) (env : ConnectEnv) :
    Option (Except IoError (Async TcpStream) × Connect) :=
  (c.inner.poll env).map fun r => (r.fst, ⟨r.snd⟩)

/-- The struct `ThreadPoolExecutor` of `src/executor/futures_thread_pool.rs`:
its only field is the `futures03::executor::ThreadPool`, modelled by the
`pool_size` it was built with.  The pool records nothing about dead worker
threads. -/
structure ThreadPoolExecutor where
  poolSize : Nat
deriving DecidableEq, Repr

/-- Function `ThreadPoolExecutor::with_thread_count(count)` (lines 70-74): asserts
`count > 0` (`none` models the `assert!` panic), then builds the pool of
`count` threads; `createErr` supplies a possible I/O error of
`ThreadPool::builder().pool_size(count).create()`. -/
def ThreadPoolExecutor.with_thread_count (createErr : Nat → Option IoError) (count : Nat) :
    Option (Except IoError ThreadPoolExecutor) :=
  if count > 0 then
    some (match createErr count with
      | some e => .error e
      | none => .ok ⟨count⟩)
  else
    none

/-- Function `ThreadPoolExecutor::new()` (lines 50-52), with the logical CPU count
(`num_cpus::get()`) passed explicitly: delegates to
`with_thread_count(num_cpus * 2)`. -/
def ThreadPoolExecutor.new (createErr : Nat → Option IoError) (numCpus : Nat) :
    Option (Except IoError ThreadPoolExecutor) :=
  ThreadPoolExecutor.with_thread_count createErr (numCpus * 2)

/-- Impl `Executor::run_once for ThreadPoolExecutor` (lines 83-85): the body is
exactly `Ok(())`; it consults no state and can signal nothing. -/
def ThreadPoolExecutor.run_once (_e : ThreadPoolExecutor) : Except IoError Unit :=
  .ok ()

/-- Number of monitors armed on a stream for one direction: the size of the
per-direction `Option` slot. -/
def armedCount (s : TcpStream) (interest : Interest) : Nat :=
  (s.monitor_get interest).elim 0 fun _ => 1

/-! Concrete sample streams and environments, used by the witnesses below to
evaluate the embedded operations on explicit inputs. -/

/-- A fresh stream (inner cell 1, handle 2), both monitor slots empty. -/
def sampleStream : TcpStream := TcpStream.new 1 2

/-- A stream whose read slot holds monitor 4. -/
def armedStream : TcpStream := ⟨1, 2, some 4, none⟩

/-- Environment: socket operation fails with a would-block error. -/
def envErrWB : OperateEnv Nat := ⟨fun _ => Except.ok Async.notReady, .error ⟨.wouldBlock, 3⟩, 7⟩

/-- Environment: socket operation fails with a non-would-block error. -/
def envErrOther : OperateEnv Nat := ⟨fun _ => Except.ok Async.notReady, .error ⟨.other 2, 3⟩, 7⟩

/-- Environment: any armed monitor polls as not ready. -/
def envNR : OperateEnv Nat := ⟨fun _ => Except.ok Async.notReady, .ok 5, 7⟩

/-- Environment: any armed monitor polls as ready; socket operation succeeds. -/
def envRd : OperateEnv Nat := ⟨fun _ => Except.ok (Async.ready ()), .ok 5, 7⟩

/-- Environment: armed monitor ready, then the socket operation would-blocks,
so a new monitor (7) is armed. -/
def envRearm : OperateEnv Nat := ⟨fun _ => Except.ok (Async.ready ()), .error ⟨.wouldBlock, 3⟩, 7⟩

/-- Flush environment whose socket operation would-blocks. -/
def flushEnvWB : OperateEnv Unit := ⟨fun _ => Except.ok Async.notReady, .error ⟨.wouldBlock, 5⟩, 9⟩

/-- Flush environment whose socket operation succeeds. -/
def flushEnvOk : OperateEnv Unit := ⟨fun _ => Except.ok Async.notReady, .ok (), 9⟩

/-- Connect environment: `mio` connect succeeds (cell `addr + 1`), registration
completes immediately with handle 55, and the readiness probe would-blocks. -/
def connectEnvWB : ConnectEnv :=
  ⟨fun a => .ok (a + 1), fun n => n + 100, fun _ => Except.ok (Async.ready 55), flushEnvWB⟩

/-- Connect environment like `connectEnvWB` but whose readiness probe succeeds. -/
def connectEnvOk : ConnectEnv :=
  ⟨fun a => .ok (a + 1), fun n => n + 100, fun _ => Except.ok (Async.ready 55), flushEnvOk⟩

/-- Connected environment: the registration future completes with handle 55. -/
def connectedEnvRd : ConnectedEnv := ⟨fun _ => Except.ok (Async.ready 55)⟩

/-- Connected environment: the registration future is not ready. -/
def connectedEnvNR : ConnectedEnv := ⟨fun _ => Except.ok Async.notReady⟩

/-! Helper lemmas about the monitor slots and one-step unfoldings of the
recursive poll functions. -/

theorem monitor_get_set (s : TcpStream) (i : Interest) (m : Option Monitor) :
    (s.monitor_set i m).monitor_get i = m := by
  cases i <;> simp [TcpStream.monitor_get, TcpStream.monitor_set, Interest.is_read]

theorem monitor_set_self (s : TcpStream) (i : Interest) (m : Monitor)
    (hm : s.monitor_get i = some m) : s.monitor_set i (some m) = s := by
  cases i <;> cases s <;>
    simp_all [TcpStream.monitor_get, TcpStream.monitor_set, Interest.is_read]

theorem monitor_set_read_write (s : TcpStream) (m : Option Monitor) :
    (s.monitor_set Interest.read m).write_monitor = s.write_monitor := by
  simp [TcpStream.monitor_set, Interest.is_read]

theorem monitor_set_write_read (s : TcpStream) (m : Option Monitor) :
    (s.monitor_set Interest.write m).read_monitor = s.read_monitor := by
  simp [TcpStream.monitor_set, Interest.is_read]

theorem operate_some (s : TcpStream) (i : Interest) (m : Monitor) (env : OperateEnv T)
    (hm : s.monitor_get i = some m) :
    s.operate i env =
      match env.pollMonitor m with
      | .error e => (.error e, s.monitor_set i none)
      | .ok (.ready _) => (s.monitor_set i none).operate i env
      | .ok .notReady => (.error mioWouldBlock, s.monitor_set i (some m)) := by
  rw [TcpStream.operate.eq_def]
  split
  case _ m2 heq => rw [hm] at heq; cases heq; rfl
  case _ heq => rw [hm] at heq; cases heq

theorem operate_none (s : TcpStream) (i : Interest) (env : OperateEnv T)
    (hm : s.monitor_get i = none) :
    s.operate i env =
      match env.socketOp with
      | .ok v => (.ok v, s)
      | .error e =>
        if e.kind = IoErrorKind.wouldBlock then
          (.error e, s.monitor_set i (some env.newMonitor))
        else
          (.error e, s) := by
  rw [TcpStream.operate.eq_def]
  split
  case _ m2 heq => rw [hm] at heq; cases heq
  case _ heq => rfl

theorem operate_write_monitor_frame_none (s : TcpStream) (env : OperateEnv T)
    (hm : s.monitor_get Interest.read = none) :
    ((s.operate Interest.read env).snd).write_monitor = s.write_monitor := by
  rw [operate_none s Interest.read env hm]
  cases hf : env.socketOp with
  | ok v => rfl
  | error e =>
    by_cases he : e.kind = IoErrorKind.wouldBlock <;> simp [he, monitor_set_read_write]

theorem operate_write_monitor_frame (s : TcpStream) (env : OperateEnv T) :
    ((s.operate Interest.read env).snd).write_monitor = s.write_monitor := by
  cases hm : s.monitor_get Interest.read with
  | none => exact operate_write_monitor_frame_none s env hm
  | some m =>
    rw [operate_some s Interest.read m env hm]
    cases hp : env.pollMonitor m with
    | error e => simp [monitor_set_read_write]
    | ok a =>
      cases a with
      | notReady => simp [monitor_set_read_write]
      | ready u =>
        have h2 := operate_write_monitor_frame_none (s.monitor_set Interest.read none) env
          (monitor_get_set s Interest.read none)
        simp only [h2, monitor_set_read_write]

theorem operate_read_monitor_frame_none (s : TcpStream) (env : OperateEnv T)
    (hm : s.monitor_get Interest.write = none) :
    ((s.operate Interest.write env).snd).read_monitor = s.read_monitor := by
  rw [operate_none s Interest.write env hm]
  cases hf : env.socketOp with
  | ok v => rfl
  | error e =>
    by_cases he : e.kind = IoErrorKind.wouldBlock <;> simp [he, monitor_set_write_read]

theorem operate_read_monitor_frame (s : TcpStream) (env : OperateEnv T) :
    ((s.operate Interest.write env).snd).read_monitor = s.read_monitor := by
  cases hm : s.monitor_get Interest.write with
  | none => exact operate_read_monitor_frame_none s env hm
  | some m =>
    rw [operate_some s Interest.write m env hm]
    cases hp : env.pollMonitor m with
    | error e => simp [monitor_set_write_read]
    | ok a =>
      cases a with
      | notReady => simp [monitor_set_write_read]
      | ready u =>
        have h2 := operate_read_monitor_frame_none (s.monitor_set Interest.write none) env
          (monitor_get_set s Interest.write none)
        simp only [h2, monitor_set_write_read]

/-- C1: with no monitor armed for `interest`, when the socket operation `f`
fails, `operate` returns exactly that error, and a new monitor is armed in
the slot for `interest` if and only if the error kind is would-block (for
any other kind the slot stays empty). -/
theorem operate_unarmed_error_propagates (s : TcpStream) (i : Interest)
    (env : OperateEnv T) (e : IoError) (hm : s.monitor_get i = none)
    (hf : env.socketOp = Except.error e) :
    (s.operate i env).fst = Except.error e ∧
      (s.operate i env).snd.monitor_get i =
        (if e.kind = IoErrorKind.wouldBlock then some env.newMonitor else none) := by
  rw [operate_none s i env hm, hf]
  by_cases he : e.kind = IoErrorKind.wouldBlock <;> simp [he, monitor_get_set, hm]

theorem operate_unarmed_error_propagates_witness :
    (sampleStream.monitor_get Interest.read = none ∧
        envErrWB.socketOp = Except.error ⟨IoErrorKind.wouldBlock, 3⟩ ∧
        (sampleStream.operate Interest.read envErrWB).fst
            = Except.error ⟨IoErrorKind.wouldBlock, 3⟩ ∧
        (sampleStream.operate Interest.read envErrWB).snd.monitor_get Interest.read =
          (if (⟨IoErrorKind.wouldBlock, 3⟩ : IoError).kind = IoErrorKind.wouldBlock then
            some envErrWB.newMonitor else none)) ∧
      (envErrOther.socketOp = Except.error ⟨IoErrorKind.other 2, 3⟩ ∧
        (sampleStream.operate Interest.read envErrOther).fst
            = Except.error ⟨IoErrorKind.other 2, 3⟩ ∧
        (sampleStream.operate Interest.read envErrOther).snd.monitor_get Interest.read =
          (if (⟨IoErrorKind.other 2, 3⟩ : IoError).kind = IoErrorKind.wouldBlock then
            some envErrOther.newMonitor else none)) := by
  have h1 := operate_unarmed_error_propagates sampleStream Interest.read envErrWB
    ⟨IoErrorKind.wouldBlock, 3⟩ rfl rfl
  have h2 := operate_unarmed_error_propagates sampleStream Interest.read envErrOther
    ⟨IoErrorKind.other 2, 3⟩ rfl rfl
  exact ⟨⟨rfl, rfl, h1.1, h1.2⟩, ⟨rfl, h2.1, h2.2⟩⟩

/-- C2: with a monitor armed for `interest`, a not-ready poll of the monitor
makes `operate` return the would-block error and leave the stream — hence the
armed monitor — unchanged, for every socket operation (which is therefore
not consulted); a ready poll clears the slot and continues exactly as if no
monitor had been armed. -/
theorem operate_armed_monitor_parks (s : TcpStream) (i : Interest) (m : Monitor)
    (env : OperateEnv T) (hm : s.monitor_get i = some m) :
    (env.pollMonitor m = Except.ok Async.notReady →
        s.operate i env = (Except.error mioWouldBlock, s)) ∧
      (env.pollMonitor m = Except.ok (Async.ready ()) →
        s.operate i env = (s.monitor_set i none).operate i env) := by
  constructor <;> intro hp <;> rw [operate_some s i m env hm, hp]
  rw [monitor_set_self s i m hm]

theorem operate_armed_monitor_parks_witness :
    (armedStream.monitor_get Interest.read = some 4 ∧
        envNR.pollMonitor 4 = Except.ok Async.notReady ∧
        armedStream.operate Interest.read envNR = (Except.error mioWouldBlock, armedStream)) ∧
      (envRd.pollMonitor 4 = Except.ok (Async.ready ()) ∧
        armedStream.operate Interest.read envRd
          = (armedStream.monitor_set Interest.read none).operate Interest.read envRd) := by
  have h1 := operate_armed_monitor_parks armedStream Interest.read 4 envNR rfl
  have h2 := operate_armed_monitor_parks armedStream Interest.read 4 envRd rfl
  exact ⟨⟨rfl, rfl, h1.1 rfl⟩, ⟨rfl, h2.2 rfl⟩⟩

/-- C5: cloning a `TcpStream` shares the `SharableEvented` inner cell and the
`EventedHandle` with the original, while both of the clone's monitor slots
start empty, whatever the original's slots held. -/
theorem tcp_stream_clone_shares_handle (s : TcpStream) :
    s.clone.inner = s.inner ∧ s.clone.handle = s.handle ∧
      s.clone.read_monitor = none ∧ s.clone.write_monitor = none :=
  ⟨rfl, rfl, rfl, rfl⟩

/-- C7: read and write park independently: `read` (which is `operate` with
read interest) leaves the write slot unchanged, and `write` and `flush`
(`operate` with write interest) leave the read slot unchanged. -/
theorem read_write_park_independently (s : TcpStream) (envR envW : OperateEnv Nat)
    (envF : OperateEnv Unit) :
    ((s.read envR).snd).write_monitor = s.write_monitor ∧
      ((s.write envW).snd).read_monitor = s.read_monitor ∧
      ((s.flush envF).snd).read_monitor = s.read_monitor :=
  ⟨operate_write_monitor_frame s envR, operate_read_monitor_frame s envW,
    operate_read_monitor_frame s envF⟩

/-- C6: per direction a stream holds at most one armed monitor — the slot is
an `Option`, so any post-state of `operate` has at most one — and `operate`
never arms a fresh monitor over a stored one: when the slot held `m` before
and holds `m2` after, either `m2` is the same monitor `m`, or `m` was
consumed by a ready poll and only then was the fresh monitor stored. -/
theorem operate_at_most_one_armed (s : TcpStream) (i : Interest) (env : OperateEnv T)
    (m m2 : Monitor) (hm : s.monitor_get i = some m)
    (h2 : (s.operate i env).snd.monitor_get i = some m2) :
    (∀ (s2 : TcpStream) (i2 : Interest) (env2 : OperateEnv T),
        armedCount (s2.operate i2 env2).snd i2 ≤ 1) ∧
      (m2 = m ∨ env.pollMonitor m = Except.ok (Async.ready ()) ∧ m2 = env.newMonitor) := by
  constructor
  · intro s2 i2 env2
    cases hg : (s2.operate i2 env2).snd.monitor_get i2 <;> simp [armedCount, hg]
  · rw [operate_some s i m env hm] at h2
    cases hp : env.pollMonitor m with
    | error e => rw [hp] at h2; simp [monitor_get_set] at h2
    | ok a =>
      cases a with
      | notReady =>
        rw [hp] at h2
        simp only [monitor_get_set, Option.some.injEq] at h2
        exact Or.inl h2.symm
      | ready u =>
        rw [hp] at h2
        rw [operate_none _ i env (monitor_get_set s i none)] at h2
        cases hf : env.socketOp with
        | ok v => rw [hf] at h2; simp [monitor_get_set] at h2
        | error e =>
          rw [hf] at h2
          by_cases he : e.kind = IoErrorKind.wouldBlock
          · simp only [he, if_true, monitor_get_set, Option.some.injEq] at h2
            cases u
            exact Or.inr ⟨rfl, h2.symm⟩
          · simp [he, monitor_get_set] at h2

theorem operate_at_most_one_armed_witness :
    (armedStream.monitor_get Interest.read = some 4 ∧
        (armedStream.operate Interest.read envRearm).snd.monitor_get Interest.read
          = some 7) ∧
      (∀ (s2 : TcpStream) (i2 : Interest) (env2 : OperateEnv Nat),
          armedCount (s2.operate i2 env2).snd i2 ≤ 1) ∧
      (7 = 4 ∨ envRearm.pollMonitor 4 = Except.ok (Async.ready ()) ∧ 7 = envRearm.newMonitor) := by
  have hs : (armedStream.operate Interest.read envRearm).snd.monitor_get Interest.read
      = some 7 := by
    simp [TcpStream.operate, armedStream, envRearm, TcpStream.monitor_get,
      TcpStream.monitor_set, Interest.is_read]
  exact ⟨⟨rfl, hs⟩, operate_at_most_one_armed armedStream Interest.read envRearm 4 7 rfl hs⟩

theorem incoming_poll_some (s : Incoming) (env : IncomingEnv) (m : Monitor)
    (hm : s.listener.monitor = some m) :
    Incoming.poll s env =
      match env.pollMonitor m with
      | .error e => (.error e, ⟨{ s.listener with monitor := none }⟩)
      | .ok (.ready _) => Incoming.poll ⟨{ s.listener with monitor := none }⟩ env
      | .ok .notReady => (.ok .notReady, ⟨{ s.listener with monitor := some m }⟩) := by
  rw [Incoming.poll.eq_def]
  split
  case _ m2 heq => rw [hm] at heq; cases heq; rfl
  case _ heq => rw [hm] at heq; cases heq

theorem incoming_poll_nomon (s : Incoming) (env : IncomingEnv)
    (hm : s.listener.monitor = none) :
    Incoming.poll s env =
      match env.acceptResult with
      | .ok (stream, addr) =>
        (.ok (.ready (some (⟨some (stream, env.register stream)⟩, addr))), s)
      | .error e =>
        if e.kind = IoErrorKind.wouldBlock then
          (.ok .notReady, ⟨{ s.listener with monitor := some env.newMonitor }⟩)
        else
          (.error e, s) := by
  rw [Incoming.poll.eq_def]
  split
  case _ m2 heq => rw [hm] at heq; cases heq
  case _ heq => rfl

theorem incoming_poll_nomon_cases (s : Incoming) (env : IncomingEnv)
    (hm : s.listener.monitor = none) :
    (Incoming.poll s env).fst = Except.ok Async.notReady ∨
      (∃ c a, (Incoming.poll s env).fst = Except.ok (Async.ready (some (c, a)))) ∨
      ∃ e, (Incoming.poll s env).fst = Except.error e := by
  rw [incoming_poll_nomon s env hm]
  cases hf : env.acceptResult with
  | ok p => exact Or.inr (Or.inl ⟨_, _, rfl⟩)
  | error e =>
    by_cases he : e.kind = IoErrorKind.wouldBlock
    · simp [he]
    · simp only [he, if_false]
      exact Or.inr (Or.inr ⟨e, rfl⟩)

/-- C8: the `Incoming` stream never yields end-of-stream: a poll is never
`Ready(None)`; it is always exactly one of not-ready, a ready newly accepted
connection (a `Connected` future plus the peer address), or an error. -/
theorem incoming_never_ends (s : Incoming) (env : IncomingEnv) :
    (Incoming.poll s env).fst = Except.ok Async.notReady ∨
      (∃ c a, (Incoming.poll s env).fst = Except.ok (Async.ready (some (c, a)))) ∨
      ∃ e, (Incoming.poll s env).fst = Except.error e := by
  cases hm : s.listener.monitor with
  | none => exact incoming_poll_nomon_cases s env hm
  | some m =>
    rw [incoming_poll_some s env m hm]
    cases hp : env.pollMonitor m with
    | error e => exact Or.inr (Or.inr ⟨e, rfl⟩)
    | ok a =>
      cases a with
      | notReady => exact Or.inl rfl
      | ready u => exact incoming_poll_nomon_cases ⟨{ s.listener with monitor := none }⟩ env rfl

/-- C3 (failing side): `ThreadPoolExecutor::run_once` returns `Ok(())` for
every executor state, unconditionally.  The executor keeps no record of dead
worker threads, so `run_once` can never return the fatal worker-died error
that both the spec and the function's own documentation promise; it silently
succeeds after a worker has died. -/
theorem run_once_always_ok (e : ThreadPoolExecutor) : e.run_once = Except.ok () :=
  rfl

/-- C4 (failing side): driving `TcpStream::connect(3)` in an environment where
the socket is created, registration completes and the readiness probe
would-blocks does return not-ready, but leaves the state machine in `Polled`
instead of restoring `Connecting`; the next poll therefore panics ("Cannot
poll ConnectInner twice", modelled as `none`) and the connect can never
complete on a later poll. -/
theorem connecting_wouldblock_loses_state :
    Connect.poll (TcpStream.connect 3) connectEnvWB
        = some (Except.ok Async.notReady, ⟨ConnectInner.polled⟩) ∧
      Connect.poll ⟨ConnectInner.polled⟩ connectEnvWB = none := by
  constructor
  · simp [Connect.poll, TcpStream.connect, ConnectInner.poll, connectEnvWB, flushEnvWB,
      TcpStream.flush, TcpStream.operate, TcpStream.new, TcpStream.monitor_get,
      TcpStream.monitor_set, Interest.is_read]
  · simp [Connect.poll, ConnectInner.poll]

/-- C9: `ThreadPoolExecutor::new()` is exactly
`with_thread_count(num_cpus::get() * 2)`, and any executor it successfully
creates has a pool of `2 × logical_cpu_count` threads. -/
theorem new_uses_double_cpu_count (f : Nat → Option IoError) (n : Nat) :
    ThreadPoolExecutor.new f n = ThreadPoolExecutor.with_thread_count f (n * 2) ∧
      ∀ ex : ThreadPoolExecutor,
        ThreadPoolExecutor.new f n = some (Except.ok ex) → ex.poolSize = n * 2 := by
  refine ⟨rfl, fun ex hex => ?_⟩
  unfold ThreadPoolExecutor.new ThreadPoolExecutor.with_thread_count at hex
  by_cases hn : n * 2 > 0
  · rw [if_pos hn] at hex
    cases hc : f (n * 2) with
    | some e => rw [hc] at hex; simp at hex
    | none =>
      rw [hc] at hex
      simp only [Option.some.injEq] at hex
      cases hex
      rfl
  · rw [if_neg hn] at hex
    cases hex

theorem new_uses_double_cpu_count_witness :
    (ThreadPoolExecutor.new (fun _ => none) 2
        = ThreadPoolExecutor.with_thread_count (fun _ => none) (2 * 2)) ∧
      ThreadPoolExecutor.new (fun _ => none) 2 = some (Except.ok ⟨4⟩) ∧
      (⟨4⟩ : ThreadPoolExecutor).poolSize = 2 * 2 :=
  ⟨(new_uses_double_cpu_count (fun _ => none) 2).1, rfl,
    (new_uses_double_cpu_count (fun _ => none) 2).2 ⟨4⟩ rfl⟩

theorem connectinner_ready_polled_connecting (stream : TcpStream) (env : ConnectEnv)
    (r : TcpStream) (st2 : ConnectInner)
    (h : ConnectInner.poll (ConnectInner.connecting stream) env
        = some (Except.ok (Async.ready r), st2)) :
    st2 = ConnectInner.polled := by
  rw [ConnectInner.poll.eq_def] at h
  simp only at h
  cases hf : stream.flush env.flushEnv with
  | mk res s2 =>
    rw [hf] at h
    cases res with
    | ok v => simp only [Option.some.injEq, Prod.mk.injEq] at h; exact h.2.symm
    | error e =>
      by_cases he : e.kind = IoErrorKind.wouldBlock
      · simp only [he, if_true, Option.some.injEq, Prod.mk.injEq] at h
        exact h.2.symm
      · simp only [he, if_false, Option.some.injEq, Prod.mk.injEq] at h
        exact h.2.symm

theorem connectinner_ready_polled_registering (stream : SharableId) (future : Register)
    (env : ConnectEnv) (r : TcpStream) (st2 : ConnectInner)
    (h : ConnectInner.poll (ConnectInner.registering stream future) env
        = some (Except.ok (Async.ready r), st2)) :
    st2 = ConnectInner.polled := by
  rw [ConnectInner.poll.eq_def] at h
  simp only at h
  cases hp : env.registerPoll future with
  | error e =>
    rw [hp] at h
    simp only [Option.some.injEq, Prod.mk.injEq] at h
    exact h.2.symm
  | ok a =>
    cases a with
    | ready handle =>
      rw [hp] at h
      exact connectinner_ready_polled_connecting _ env r st2 h
    | notReady => rw [hp] at h; simp at h

theorem connectinner_ready_polled (st : ConnectInner) (env : ConnectEnv)
    (r : TcpStream) (st2 : ConnectInner)
    (h : ConnectInner.poll st env = some (Except.ok (Async.ready r), st2)) :
    st2 = ConnectInner.polled := by
  cases st with
  | connect addr =>
    rw [ConnectInner.poll.eq_def] at h
    simp only at h
    cases hc : env.connectResult addr with
    | error e =>
      rw [hc] at h
      simp only [Option.some.injEq, Prod.mk.injEq] at h
      exact h.2.symm
    | ok stream =>
      rw [hc] at h
      exact connectinner_ready_polled_registering _ _ env r st2 h
  | registering stream future => exact connectinner_ready_polled_registering _ _ env r st2 h
  | connecting stream => exact connectinner_ready_polled_connecting _ env r st2 h
  | polled => rw [ConnectInner.poll.eq_def] at h; cases h

/-- C10: once `Connected` (or `Connect`) has returned its stream with ready,
polling it again panics (the "cannot poll twice" panic, modelled as `none`)
instead of producing a value or not-ready; and a not-ready poll of
`Connected` before completion restores its state unchanged, so it can be
polled again. -/
theorem poll_after_completion_panics :
    (∀ (env env2 : ConnectedEnv) (c c2 : Connected) (r : TcpStream),
        Connected.poll c env = some (Except.ok (Async.ready r), c2) →
          Connected.poll c2 env2 = none) ∧
      (∀ (env : ConnectedEnv) (c c2 : Connected),
          Connected.poll c env = some (Except.ok Async.notReady, c2) → c2 = c) ∧
      ∀ (env env2 : ConnectEnv) (c c2 : Connect) (r : TcpStream),
        Connect.poll c env = some (Except.ok (Async.ready r), c2) →
          Connect.poll c2 env2 = none := by
  refine ⟨?_, ?_, ?_⟩
  · intro env env2 c c2 r h
    obtain ⟨inner⟩ := c
    cases inner with
    | none => simp [Connected.poll] at h
    | some p =>
      obtain ⟨st, fut⟩ := p
      cases hp : env.registerPoll fut with
      | error e => simp [Connected.poll, hp] at h
      | ok a =>
        cases a with
        | ready handle =>
          simp only [Connected.poll, hp, Option.some.injEq, Prod.mk.injEq] at h
          rw [← h.2]
          rfl
        | notReady => simp [Connected.poll, hp] at h
  · intro env c c2 h
    obtain ⟨inner⟩ := c
    cases inner with
    | none => simp [Connected.poll] at h
    | some p =>
      obtain ⟨st, fut⟩ := p
      cases hp : env.registerPoll fut with
      | error e => simp [Connected.poll, hp] at h
      | ok a =>
        cases a with
        | ready handle => simp [Connected.poll, hp] at h
        | notReady =>
          simp only [Connected.poll, hp, Option.some.injEq, Prod.mk.injEq] at h
          exact h.2.symm
  · intro env env2 c c2 r h
    obtain ⟨st⟩ := c
    simp only [Connect.poll, Option.map_eq_some'] at h
    obtain ⟨⟨res, st2⟩, hpoll, heq⟩ := h
    simp only [Prod.mk.injEq] at heq
    obtain ⟨hres, hc2⟩ := heq
    rw [hres] at hpoll
    have hst2 := connectinner_ready_polled st env r st2 hpoll
    rw [← hc2, hst2]
    simp [Connect.poll, ConnectInner.poll]

theorem poll_after_completion_panics_witness :
    (Connected.poll ⟨some (4, 10)⟩ connectedEnvRd
        = some (Except.ok (Async.ready (TcpStream.new 4 55)), ⟨none⟩) ∧
      Connected.poll (⟨none⟩ : Connected) connectedEnvRd = none) ∧
      (Connected.poll ⟨some (4, 10)⟩ connectedEnvNR
          = some (Except.ok Async.notReady, ⟨some (4, 10)⟩) ∧
        (⟨some (4, 10)⟩ : Connected) = ⟨some (4, 10)⟩) ∧
      Connect.poll ⟨ConnectInner.connecting (TcpStream.new 4 55)⟩ connectEnvOk
          = some (Except.ok (Async.ready (TcpStream.new 4 55)), ⟨ConnectInner.polled⟩) ∧
      Connect.poll ⟨ConnectInner.polled⟩ connectEnvOk = none := by
  have h5 : Connect.poll ⟨ConnectInner.connecting (TcpStream.new 4 55)⟩ connectEnvOk
      = some (Except.ok (Async.ready (TcpStream.new 4 55)), ⟨ConnectInner.polled⟩) := by
    simp [Connect.poll, ConnectInner.poll, connectEnvOk, flushEnvOk, TcpStream.flush,
      TcpStream.operate, TcpStream.new, TcpStream.monitor_get, TcpStream.monitor_set,
      Interest.is_read]
  refine ⟨⟨rfl, ?_⟩, ⟨rfl, ?_⟩, h5, ?_⟩
  · exact poll_after_completion_panics.1 connectedEnvRd connectedEnvRd ⟨some (4, 10)⟩
      ⟨none⟩ (TcpStream.new 4 55) rfl
  · exact poll_after_completion_panics.2.1 connectedEnvNR ⟨some (4, 10)⟩ ⟨some (4, 10)⟩ rfl
  · exact poll_after_completion_panics.2.2 connectEnvOk connectEnvOk _ _ _ h5

end Fibers
